import Mathlib

/-!
Verification of the classical decoding / post-selection layer of a 7-qubit
color-code experiment repository.

The definitions below are shallow embeddings of:
  * `team_solutions/QuantumETS/src/syndrome_evals.py`
    (`FAULTY_QUBIT_MAP`, `extract_syndrome`, `result_is_valid`,
    `evaluate_syndromes`, `evaluate_faulty_qubit`);
  * the X/Z correction ladders of
    `team_solutions/QuantumETS/src/kernel_builder.py` (`xz_error_detection`);
  * the syndrome / logical-observable / post-selection helpers of
    `team_solutions/furious_five/furious_five.py`
    (`sample`, `logical_obs`, `syndromes`, `logical_error`, `post_select`).

Measurement bits are `Nat` (the Python code uses ints 0/1), fallible code
(dict lookup, out-of-range indexing, `str.join` on non-strings) is modelled
with `Option` / `Except`, and rates are `ℚ` (Python floats hold exact small
counts here; `float("nan")` is modelled as `Option.none`).
-/

/-- A Python runtime value, as far as `evaluate_faulty_qubit` can observe it:
its argument's items are either ints (e.g. the tuple produced by
`evaluate_syndromes`) or strings. -/
inductive PyVal : Type
  | int (n : Int)
  | str (s : String)
deriving DecidableEq, Repr

/-- The two runtime failures reachable in `evaluate_faulty_qubit`:
`"".join(...)` raising `TypeError` on a non-string item, and the dict
lookup raising `KeyError` on a missing key. -/
inductive PyErr : Type
  | typeError
  | keyError (key : String)
deriving DecidableEq, Repr

/-- Embedding of Python `"".join(items)`: concatenates string items left to
right, failing with `TypeError` at the first non-string item. -/
def str_join : List PyVal → Except PyErr String
  | [] => Except.ok ""
  | PyVal.int _ :: _ => Except.error PyErr.typeError
  | PyVal.str s :: rest =>
    match str_join rest with
    | Except.ok t => Except.ok (s ++ t)
    | Except.error e => Except.error e

/-- The dict `FAULTY_QUBIT_MAP` of `syndrome_evals.py` (lines 17-26), as a
partial map: `some v` for a present key, `none` for a missing one. -/
def FAULTY_QUBIT_MAP : String → Option Int := fun s =>
  if s = "000" then some (-1)
  else if s = "100" then some 0
  else if s = "101" then some 1
  else if s = "111" then some 2
  else if s = "110" then some 3
  else if s = "011" then some 4
  else if s = "001" then some 5
  else if s = "010" then some 6
  else none

/-- The 8 syndrome strings that are keys of `FAULTY_QUBIT_MAP`, in the
dict's literal order. -/
def syndromeStrings : List String :=
  ["000", "100", "101", "111", "110", "011", "001", "010"]

/-- Model of `extract_syndrome` (`syndrome_evals.py` lines 38-64): sums the group's
measurement results and returns the parity (`t % 2`). -/
def extract_syndrome (group : List Nat) : Nat :=
  (group.foldl (fun t i => t + i) 0) % 2

/-- Model of `result_is_valid` (`syndrome_evals.py` lines 67-106): reads the seven
measurement results, computes the blue/red/green plaquette parities, and
returns `True` unless some parity is 1.  Indexing a too-short record fails
(`none`). -/
def result_is_valid (results : List Nat) : Option Bool :=
  match results with
  | r0 :: r1 :: r2 :: r3 :: r4 :: r5 :: r6 :: _ =>
    let blue := [r0, r1, r2, r3]
    let red := [r2, r3, r4, r6]
    let green := [r1, r2, r4, r5]
    let resultat_blue := extract_syndrome blue
    let resultat_red := extract_syndrome red
    let resultat_green := extract_syndrome green
    some (if resultat_blue = 1 ∨ resultat_red = 1 ∨ resultat_green = 1 then false else true)
  | _ => none

/-- The logical-observable parity computed inside `result_is_valid`
(`syndrome_evals.py` lines 89, 100): parity of results 0, 1 and 5. -/
def logical_observable_parity (results : List Nat) : Option Nat :=
  match results with
  | r0 :: r1 :: _ :: _ :: _ :: r5 :: _ :: _ =>
    some (extract_syndrome [r0, r1, r5])
  | _ => none

/-- Model of `evaluate_syndromes` (`syndrome_evals.py` lines 109-137): returns the
triple of blue/red/green plaquette parities of a record; indexing a
too-short record fails (`none`). -/
def evaluate_syndromes (results : List Nat) : Option (Nat × Nat × Nat) :=
  match results with
  | r0 :: r1 :: r2 :: r3 :: r4 :: r5 :: r6 :: _ =>
    let blue := [r0, r1, r2, r3]
    let red := [r2, r3, r4, r6]
    let green := [r1, r2, r4, r5]
    some (extract_syndrome blue, extract_syndrome red, extract_syndrome green)
  | _ => none

/-- Model of `evaluate_faulty_qubit` (`syndrome_evals.py` lines 139-141):
`"".join(syndrome_brg)` followed by the dict lookup
`FAULTY_QUBIT_MAP[syndrome_str]`. -/
def evaluate_faulty_qubit (syndrome_brg : List PyVal) : Except PyErr Int :=
  match str_join syndrome_brg with
  | Except.error e => Except.error e
  | Except.ok syndrome_str =>
    match FAULTY_QUBIT_MAP syndrome_str with
    | some q => Except.ok q
    | none => Except.error (PyErr.keyError syndrome_str)

/-- A Python string, seen as the sequence of its one-character strings (what
iterating a `str`, e.g. in `"".join`, yields). -/
def pyOfString (s : String) : List PyVal :=
  s.data.map fun c => PyVal.str (String.mk [c])

/-- The X-correction if/elif ladder of `xz_error_detection`
(`kernel_builder.py` lines 213-227): given the three parity bits, the index
of the data qubit that receives an `X` correction, or `none` when no branch
fires. -/
def x_correction_target (blue red green : Nat) : Option (Fin 7) :=
  if blue = 1 ∧ red = 0 ∧ green = 0 then some 0
  else if blue = 1 ∧ red = 0 ∧ green = 1 then some 1
  else if blue = 1 ∧ red = 1 ∧ green = 1 then some 2
  else if blue = 1 ∧ red = 1 ∧ green = 0 then some 3
  else if blue = 0 ∧ red = 1 ∧ green = 1 then some 4
  else if blue = 0 ∧ red = 0 ∧ green = 1 then some 5
  else if blue = 0 ∧ red = 1 ∧ green = 0 then some 6
  else none

/-- The Z-correction if/elif ladder of `xz_error_detection`
(`kernel_builder.py` lines 233-247): same branch structure as the X pass,
selecting the data qubit that receives a `Z` correction. -/
def z_correction_target (blue red green : Nat) : Option (Fin 7) :=
  if blue = 1 ∧ red = 0 ∧ green = 0 then some 0
  else if blue = 1 ∧ red = 0 ∧ green = 1 then some 1
  else if blue = 1 ∧ red = 1 ∧ green = 1 then some 2
  else if blue = 1 ∧ red = 1 ∧ green = 0 then some 3
  else if blue = 0 ∧ red = 1 ∧ green = 1 then some 4
  else if blue = 0 ∧ red = 0 ∧ green = 1 then some 5
  else if blue = 0 ∧ red = 1 ∧ green = 0 then some 6
  else none

/-- The three parity bits written as the 3-character syndrome string
"blue red green" used as a `FAULTY_QUBIT_MAP` key. -/
def syndrome_key (blue red green : Nat) : String :=
  (if blue = 1 then "1" else "0") ++ (if red = 1 then "1" else "0")
    ++ (if green = 1 then "1" else "0")

/-- The bit-to-sign conversion of `sample` (`furious_five.py` lines 161-163):
a measurement bit b becomes the expectation sign `b * (-2) + 1`
(0 ↦ +1, 1 ↦ -1). -/
def sample_sign (b : Nat) : Int := (b : Int) * (-2) + 1

/-- Model of `logical_obs` (`furious_five.py` lines 166-168), per shot: the product
of the sign entries at columns 0, 1 and 5. -/
def logical_obs (arr : List Int) : Option Int :=
  match arr with
  | a0 :: a1 :: _ :: _ :: _ :: a5 :: _ => some (a0 * a1 * a5)
  | _ => none

/-- Model of `syndromes` (`furious_five.py` lines 171-177), per shot: the three sign
products, in the source's order (columns 0·1·2·3, then 1·5·4·2, then
6·4·2·3). -/
def ff_syndromes (arr : List Int) : Option (Int × Int × Int) :=
  match arr with
  | a0 :: a1 :: a2 :: a3 :: a4 :: a5 :: a6 :: _ =>
    some (a0 * a1 * a2 * a3, a1 * a5 * a4 * a2, a6 * a4 * a2 * a3)
  | _ => none

/-- Model of `noise_free_mask` (`furious_five.py` lines 180-183), per shot: true when
the three sign syndromes sum to 3 (all equal +1). -/
def noise_free_mask (arr : List Int) : Option Bool :=
  (ff_syndromes arr).map fun s => s.1 + s.2.1 + s.2.2 == 3

/-- Model of `logical_error` (`furious_five.py` lines 186-190): `none` (Python
`float("nan")`) on an empty value list, otherwise the fraction of values
different from `true_value`. -/
def logical_error (values : List Int) (true_value : Int) : Option ℚ :=
  if values.length = 0 then none
  else some (((values.filter fun v => v != true_value).length : ℚ) / (values.length : ℚ))

/-- The alive-mask accumulation of `post_select` (`furious_five.py` lines
447-454) after `i` rounds: `alive_mask` starts all-true and each round does
`alive_mask &= mask`, here per shot over the list of that shot's per-round
validity bits. -/
def post_select_alive_after (round_valid : List Bool) (i : Nat) : Bool :=
  (round_valid.take i).foldl (fun alive mask => alive && mask) true

/-- The per-shot alive mask of `post_select` after all rounds. -/
def post_select_alive (round_valid : List Bool) : Bool :=
  round_valid.foldl (fun alive mask => alive && mask) true

/-- The aggregation performed at the end of `post_select` (`furious_five.py`
lines 456-465), over per-shot alive bits and per-shot logical-observable
values: `(logical_error(values[alive_mask]), logical_error(values),
alive_mask.sum() / shots)` with the source's default `true_value = 1`. -/
def post_select_agg (alive_mask : List Bool) (values : List Int) :
    Option ℚ × Option ℚ × ℚ :=
  let surviving := ((alive_mask.zip values).filter fun p => p.1).map Prod.snd
  (logical_error surviving 1, logical_error values 1,
    (alive_mask.count true : ℚ) / (alive_mask.length : ℚ))

/-- C1: `FAULTY_QUBIT_MAP` maps the all-zero syndrome `"000"`, and only it,
to -1 (no fault), and maps the other 7 syndrome strings bijectively onto
qubit indices 0..6 exactly as the section 4.2 table: `"100"`→0, `"101"`→1,
`"111"`→2, `"110"`→3, `"011"`→4, `"001"`→5, `"010"`→6. -/
theorem faulty_qubit_map_table :
    FAULTY_QUBIT_MAP "000" = some (-1) ∧
    syndromeStrings.filter (fun s => FAULTY_QUBIT_MAP s == some (-1)) = ["000"] ∧
    (["100", "101", "111", "110", "011", "001", "010"].map FAULTY_QUBIT_MAP)
      = [some 0, some 1, some 2, some 3, some 4, some 5, some 6] := by
  decide

/-- C2: a measurement record is judged valid by `result_is_valid` exactly
when `evaluate_syndromes` returns (0,0,0) on it (both fail together on
short records, so the equivalence holds for every record); the all-zero
7-bit record yields syndromes (0,0,0), is valid, and has logical-observable
parity 0. -/
theorem result_is_valid_iff_zero_syndromes :
    (∀ results : List Nat,
      result_is_valid results = some true ↔ evaluate_syndromes results = some (0, 0, 0)) ∧
    evaluate_syndromes [0, 0, 0, 0, 0, 0, 0] = some (0, 0, 0) ∧
    result_is_valid [0, 0, 0, 0, 0, 0, 0] = some true ∧
    logical_observable_parity [0, 0, 0, 0, 0, 0, 0] = some 0 := by
  refine ⟨?_, by decide, by decide, by decide⟩
  intro results
  match results with
  | [] | [_] | [_, _] | [_, _, _] | [_, _, _, _] | [_, _, _, _, _] | [_, _, _, _, _, _] =>
    simp [result_is_valid, evaluate_syndromes]
  | r0 :: r1 :: r2 :: r3 :: r4 :: r5 :: r6 :: rest =>
    simp only [result_is_valid, evaluate_syndromes, extract_syndrome, Option.some.injEq,
      Prod.mk.injEq]
    constructor
    · intro h
      split at h
      · exact absurd h (by simp)
      · next hc => push_neg at hc; omega
    · intro h
      split
      · next hc => omega
      · rfl

/-- C5: on every value of the three parity bits in {0,1}^3, both the
X-correction ladder and the Z-correction ladder of `xz_error_detection`
select exactly the qubit index that the `FAULTY_QUBIT_MAP` lookup gives for
the concatenated string blue-red-green, and apply no correction exactly when
the syndrome is (0,0,0) (equivalently, when the lookup gives -1): neither
ladder misses a branch. -/
theorem correction_ladders_equal_fault_table :
    ∀ b r g : Fin 2,
      (∀ q : Fin 7,
        x_correction_target b r g = some q ↔
          FAULTY_QUBIT_MAP (syndrome_key b r g) = some (q : Int)) ∧
      z_correction_target b r g = x_correction_target b r g ∧
      (x_correction_target b r g = none ↔ ((b : Nat), (r : Nat), (g : Nat)) = (0, 0, 0)) ∧
      (x_correction_target b r g = none ↔
        FAULTY_QUBIT_MAP (syndrome_key b r g) = some (-1)) := by
  decide

/-- Joining the one-character pieces of a string gives the string back
(Python: `"".join(s) == s` for a `str` s). -/
theorem str_join_pyOfString (s : String) : str_join (pyOfString s) = Except.ok s := by
  have h : ∀ l : List Char,
      str_join (l.map fun c => PyVal.str (String.mk [c])) = Except.ok (String.mk l) := by
    intro l
    induction l with
    | nil => rfl
    | cons c t ih =>
      show (match str_join (t.map fun c => PyVal.str (String.mk [c])) with
        | Except.ok r => Except.ok (String.mk [c] ++ r)
        | Except.error e => Except.error e) = Except.ok (String.mk (c :: t))
      rw [ih]
      rfl
  obtain ⟨data⟩ := s
  exact h data

/-- C7: `evaluate_faulty_qubit`, applied to a syndrome string (the sequence
of its characters), fails exactly when the string is not one of the 8 keys
of `FAULTY_QUBIT_MAP`, and on each of the 8 valid 3-bit syndrome strings it
returns the table's entry without error. -/
theorem evaluate_faulty_qubit_fails_iff_invalid :
    (∀ s : String,
      (∃ e, evaluate_faulty_qubit (pyOfString s) = Except.error e) ↔ s ∉ syndromeStrings) ∧
    (syndromeStrings.map fun s => evaluate_faulty_qubit (pyOfString s))
      = [Except.ok (-1), Except.ok 0, Except.ok 1, Except.ok 2, Except.ok 3,
         Except.ok 4, Except.ok 5, Except.ok 6] := by
  constructor
  · intro s
    have hev : evaluate_faulty_qubit (pyOfString s) =
        match FAULTY_QUBIT_MAP s with
        | some q => Except.ok q
        | none => Except.error (PyErr.keyError s) := by
      unfold evaluate_faulty_qubit
      rw [str_join_pyOfString s]
    rw [hev]
    constructor
    · rintro ⟨e, he⟩ hmem
      fin_cases hmem <;> simp [FAULTY_QUBIT_MAP] at he
    · intro hmem
      have hnone : FAULTY_QUBIT_MAP s = none := by
        simp only [syndromeStrings, List.mem_cons, List.not_mem_nil, or_false] at hmem
        push_neg at hmem
        obtain ⟨h0, h1, h2, h3, h4, h5, h6, h7⟩ := hmem
        simp [FAULTY_QUBIT_MAP, h0, h1, h2, h3, h4, h5, h6, h7]
      rw [hnone]
      exact ⟨PyErr.keyError s, rfl⟩
  · rfl

/-- C8: syndrome extraction (`evaluate_syndromes` and `result_is_valid`)
fails exactly on measurement records whose length is less than 7 (does not
cover all plaquette-group indices); record length is the only failure
mode. -/
theorem syndrome_extraction_fails_iff_short :
    ∀ results : List Nat,
      (evaluate_syndromes results = none ↔ results.length < 7) ∧
      (result_is_valid results = none ↔ results.length < 7) := by
  intro results
  match results with
  | [] | [_] | [_, _] | [_, _, _] | [_, _, _, _] | [_, _, _, _, _] | [_, _, _, _, _, _] =>
    simp [result_is_valid, evaluate_syndromes]
  | r0 :: r1 :: r2 :: r3 :: r4 :: r5 :: r6 :: rest =>
    simp [result_is_valid, evaluate_syndromes]

/-- Folding `&&` over a list equals the seed conjoined with `List.all`. -/
theorem foldl_and_eq_all (l : List Bool) (b : Bool) :
    l.foldl (fun alive mask => alive && mask) b = (b && l.all id) := by
  induction l generalizing b with
  | nil => simp
  | cons v rest ih => simp [ih, Bool.and_assoc]

/-- C3: the per-shot alive mask of `post_select` starts true, is updated
each round only by AND with that round's validity bit, hence is
monotonically non-increasing over rounds (false after round i implies false
after every round j ≥ i), and the final mask is true exactly when every
round's validity bit is true. -/
theorem alive_mask_monotone :
    (∀ round_valid : List Bool, post_select_alive_after round_valid 0 = true) ∧
    (∀ (round_valid : List Bool) (i j : Nat), i ≤ j →
      post_select_alive_after round_valid i = false →
      post_select_alive_after round_valid j = false) ∧
    (∀ round_valid : List Bool,
      (post_select_alive round_valid = true ↔ ∀ v ∈ round_valid, v = true) ∧
      post_select_alive round_valid = post_select_alive_after round_valid round_valid.length) := by
  refine ⟨fun _ => rfl, ?_, ?_⟩
  · intro round_valid i j hij hfalse
    rw [post_select_alive_after, foldl_and_eq_all, Bool.true_and] at hfalse ⊢
    have hj : round_valid.take j = round_valid.take i ++ (round_valid.drop i).take (j - i) := by
      rw [← List.take_add]
      congr 1
      omega
    rw [hj, List.all_append, hfalse, Bool.false_and]
  · intro round_valid
    constructor
    · rw [post_select_alive, foldl_and_eq_all, Bool.true_and]
      simp
    · rw [post_select_alive, post_select_alive_after, List.take_length]

/-- Witness for C3 at a concrete run: with validity bits
`[true, false, true]` the mask is false after round 2 and hence still false
after round 3. -/
theorem alive_mask_monotone_witness :
    post_select_alive_after [true, false, true] 3 = false :=
  alive_mask_monotone.2.1 [true, false, true] 2 3 (by decide) (by decide)

/-- The surviving-value list selected by the alive mask has as many entries
as the mask has `true` bits (when mask and values have equal length). -/
theorem surviving_length_eq_count (alive_mask : List Bool) (values : List Int)
    (h : alive_mask.length = values.length) :
    (((alive_mask.zip values).filter fun p => p.1).map Prod.snd).length
      = alive_mask.count true := by
  induction alive_mask generalizing values with
  | nil => simp
  | cons a rest ih =>
    match values with
    | [] => simp at h
    | v :: vs =>
      simp only [List.length_cons, Nat.add_right_cancel_iff] at h
      cases a <;> simp [List.zip_cons_cons, List.count_cons, ih vs h]

/-- Filtering the masked values by a predicate is the same as filtering the
zipped list by mask-and-predicate. -/
theorem filter_surviving_eq (l : List (Bool × Int)) (p : Int → Bool) :
    ((l.filter fun q => q.1).map Prod.snd).filter p
      = (l.filter fun q => q.1 && p q.2).map Prod.snd := by
  induction l with
  | nil => rfl
  | cons q rest ih =>
    cases hq : q.1 <;> cases hp : p q.2 <;>
      simp [List.filter_cons, hq, hp, ih]

/-- C4: for n ≥ 1 shots, the `post_select` aggregation built on
`logical_error` returns survival rate = (# shots with alive mask true) / n,
physical error rate = (# shots whose logical observable differs from the
expected value 1) / n, and logical error rate = (# surviving shots whose
observable differs from the expected value) / (# surviving shots), the
latter being NaN (`none`) exactly when zero shots survive. -/
theorem post_select_rates (n : Nat) (alive_mask : List Bool) (values : List Int)
    (ha : alive_mask.length = n) (hv : values.length = n) (hn : 1 ≤ n) :
    (post_select_agg alive_mask values).2.2 = (alive_mask.count true : ℚ) / n ∧
    (post_select_agg alive_mask values).2.1
      = some (((values.filter fun v => v != 1).length : ℚ) / n) ∧
    (alive_mask.count true = 0 → (post_select_agg alive_mask values).1 = none) ∧
    (0 < alive_mask.count true →
      (post_select_agg alive_mask values).1
        = some ((((alive_mask.zip values).filter fun p => p.1 && p.2 != 1).length : ℚ)
            / (alive_mask.count true : ℚ))) := by
  have hlen : alive_mask.length = values.length := by rw [ha, hv]
  have hsurv := surviving_length_eq_count alive_mask values hlen
  refine ⟨?_, ?_, ?_, ?_⟩
  · show (alive_mask.count true : ℚ) / (alive_mask.length : ℚ) = _
    rw [ha]
  · show logical_error values 1 = _
    rw [logical_error, if_neg (by omega), hv]
  · intro hzero
    show logical_error (((alive_mask.zip values).filter fun p => p.1).map Prod.snd) 1 = none
    rw [logical_error, if_pos (by rw [hsurv, hzero])]
  · intro hpos
    show logical_error (((alive_mask.zip values).filter fun p => p.1).map Prod.snd) 1 = _
    rw [logical_error, if_neg (by rw [hsurv]; omega), hsurv,
      filter_surviving_eq (alive_mask.zip values) (fun x => x != 1), List.length_map]

/-- Witness for C4 at a concrete run of 2 shots: masks `[true, false]`,
observables `[-1, 1]`, expected value 1: survival rate 1/2, physical error
rate 1/2, logical error rate 1/1. -/
theorem post_select_rates_witness :
    (post_select_agg [true, false] [-1, 1]).2.2 = 1 / 2 ∧
    (post_select_agg [true, false] [-1, 1]).2.1 = some (1 / 2) ∧
    (post_select_agg [true, false] [-1, 1]).1 = some (1 / 1) := by
  obtain ⟨h1, h2, _, h4⟩ := post_select_rates 2 [true, false] [-1, 1] rfl rfl (by norm_num)
  refine ⟨?_, ?_, ?_⟩
  · rw [h1]; norm_num
  · rw [h2]; norm_num
  · rw [h4 (by decide)]; norm_num

/-- Folding addition over a list starting from `b` gives `b` plus the
list's sum. -/
theorem foldl_add_eq_sum (l : List Nat) (b : Nat) :
    l.foldl (fun t i => t + i) b = b + l.sum := by
  induction l generalizing b with
  | nil => simp
  | cons x rest ih => simp [ih, add_assoc]

/-- `extract_syndrome` depends only on the multiset of bits in the group. -/
theorem extract_syndrome_perm (g1 g2 : List Nat) (h : g1.Perm g2) :
    extract_syndrome g1 = extract_syndrome g2 := by
  rw [extract_syndrome, extract_syndrome, foldl_add_eq_sum, foldl_add_eq_sum, h.sum_eq]

/-- Counterexample to C6 as stated: the records `[1,0,0,0,0,0,0]` and
`[0,1,0,0,0,0,0]` differ only by swapping positions 0 and 1, both positions
of the blue plaquette group, yet their full syndromes differ ((1,0,0) vs
(1,0,1)): permuting bit positions inside one group does not leave the full
syndrome invariant, because the groups overlap. -/
theorem syndrome_perm_counterexample :
    evaluate_syndromes [1, 0, 0, 0, 0, 0, 0] = some (1, 0, 0) ∧
    evaluate_syndromes [0, 1, 0, 0, 0, 0, 0] = some (1, 0, 1) ∧
    List.Perm [1, 0, 0, 0, 0, 0, 0] [0, 1, 0, 0, 0, 0, 0] ∧
    List.drop 2 [1, 0, 0, 0, 0, 0, 0] = List.drop 2 ([0, 1, 0, 0, 0, 0, 0] : List Nat) := by
  refine ⟨by decide, by decide, ?_, by decide⟩
  exact List.Perm.swap 0 1 [0, 0, 0, 0, 0]

/-- C6 (amended): `extract_syndrome` returns the sum of the group's bits
modulo 2 and is invariant under any permutation of the bits within the
group; consequently each individual component of the full syndrome of a
length-7 record is invariant under any permutation of the record's bits
within that component's own plaquette group (the full 3-component syndrome
need not be, since the groups share positions). -/
theorem extract_syndrome_parity_perm_invariant :
    (∀ group : List Nat, extract_syndrome group = group.sum % 2) ∧
    (∀ g1 g2 : List Nat, g1.Perm g2 → extract_syndrome g1 = extract_syndrome g2) ∧
    (∀ r0 r1 r2 r3 r4 r5 r6 s0 s1 s2 s3 : Nat,
      List.Perm [r0, r1, r2, r3] [s0, s1, s2, s3] →
      (evaluate_syndromes [r0, r1, r2, r3, r4, r5, r6]).map (fun t => t.1)
        = (evaluate_syndromes [s0, s1, s2, s3, r4, r5, r6]).map (fun t => t.1)) ∧
    (∀ r0 r1 r2 r3 r4 r5 r6 s2 s3 s4 s6 : Nat,
      List.Perm [r2, r3, r4, r6] [s2, s3, s4, s6] →
      (evaluate_syndromes [r0, r1, r2, r3, r4, r5, r6]).map (fun t => t.2.1)
        = (evaluate_syndromes [r0, r1, s2, s3, s4, r5, s6]).map (fun t => t.2.1)) ∧
    (∀ r0 r1 r2 r3 r4 r5 r6 s1 s2 s4 s5 : Nat,
      List.Perm [r1, r2, r4, r5] [s1, s2, s4, s5] →
      (evaluate_syndromes [r0, r1, r2, r3, r4, r5, r6]).map (fun t => t.2.2)
        = (evaluate_syndromes [r0, s1, s2, r3, s4, s5, r6]).map (fun t => t.2.2)) := by
  refine ⟨?_, extract_syndrome_perm, ?_, ?_, ?_⟩
  · intro group
    rw [extract_syndrome, foldl_add_eq_sum, Nat.zero_add]
  · intro r0 r1 r2 r3 r4 r5 r6 s0 s1 s2 s3 h
    simp [evaluate_syndromes, extract_syndrome_perm _ _ h]
  · intro r0 r1 r2 r3 r4 r5 r6 s2 s3 s4 s6 h
    simp [evaluate_syndromes, extract_syndrome_perm _ _ h]
  · intro r0 r1 r2 r3 r4 r5 r6 s1 s2 s4 s5 h
    simp [evaluate_syndromes, extract_syndrome_perm _ _ h]

/-- Witness for the amended C6 at concrete inputs: reversing a group leaves
its parity unchanged, and swapping the two bits of the blue group at
positions 0 and 1 leaves the blue component of the syndrome unchanged. -/
theorem extract_syndrome_parity_perm_invariant_witness :
    extract_syndrome [1, 0, 1] = extract_syndrome [1, 1, 0] ∧
    (evaluate_syndromes [1, 0, 0, 0, 0, 0, 0]).map (fun t => t.1)
      = (evaluate_syndromes [0, 1, 0, 0, 0, 0, 0]).map (fun t => t.1) :=
  ⟨extract_syndrome_parity_perm_invariant.2.1 [1, 0, 1] [1, 1, 0] (by decide),
   extract_syndrome_parity_perm_invariant.2.2.1 1 0 0 0 0 0 0 0 1 0 0 (by decide)⟩

/-- The sign of a 4-bit parity is the product of the individual signs. -/
theorem sign_mul_of_parity (a b c d : Nat)
    (ha : a ≤ 1) (hb : b ≤ 1) (hc : c ≤ 1) (hd : d ≤ 1) :
    sample_sign a * sample_sign b * sample_sign c * sample_sign d
      = sample_sign ((a + b + c + d) % 2) := by
  interval_cases a <;> interval_cases b <;> interval_cases c <;> interval_cases d <;> decide

/-- Counterexample to C9 as stated: on the record `[0,0,0,0,0,1,0]`,
QuantumETS's `evaluate_syndromes` returns (0,0,1) (blue, red, green), but
furious_five's `syndromes` on the corresponding sign row returns (1,-1,1),
which is not the componentwise bit-to-sign image (1,1,-1): the two
implementations do not list the three plaquettes in the same order. -/
theorem ff_vs_ets_order_counterexample :
    evaluate_syndromes [0, 0, 0, 0, 0, 1, 0] = some (0, 0, 1) ∧
    ff_syndromes ([0, 0, 0, 0, 0, 1, 0].map sample_sign) = some (1, -1, 1) ∧
    ff_syndromes ([0, 0, 0, 0, 0, 1, 0].map sample_sign)
      ≠ some (sample_sign 0, sample_sign 0, sample_sign 1) := by
  refine ⟨by decide, by decide, by decide⟩

/-- C9 (amended): both implementations compute the parities of the same
three fixed plaquette groups, but in different component orders: for every
7-bit record, furious_five's `syndromes` on the sign row equals, under the
bit-to-sign map `b ↦ 1 - 2b`, the triple (blue, green, red) of QuantumETS's
`evaluate_syndromes` — its first component matches, while its second and
third components are QuantumETS's third and second. -/
theorem ff_syndromes_refine_evaluate_syndromes
    (r : List Nat) (h7 : r.length = 7) (hb : ∀ b ∈ r, b ≤ 1)
    (s1 s2 s3 : Nat) (hs : evaluate_syndromes r = some (s1, s2, s3)) :
    ff_syndromes (r.map sample_sign)
      = some (sample_sign s1, sample_sign s3, sample_sign s2) := by
  match r, h7 with
  | [r0, r1, r2, r3, r4, r5, r6], _ =>
    have h0 : r0 ≤ 1 := hb r0 (by simp)
    have h1 : r1 ≤ 1 := hb r1 (by simp)
    have h2 : r2 ≤ 1 := hb r2 (by simp)
    have h3 : r3 ≤ 1 := hb r3 (by simp)
    have h4 : r4 ≤ 1 := hb r4 (by simp)
    have h5 : r5 ≤ 1 := hb r5 (by simp)
    have h6 : r6 ≤ 1 := hb r6 (by simp)
    simp only [evaluate_syndromes, extract_syndrome, List.foldl_cons, List.foldl_nil,
      Option.some.injEq, Prod.mk.injEq] at hs
    obtain ⟨e1, e2, e3⟩ := hs
    simp only [List.map_cons, List.map_nil, ff_syndromes, Option.some.injEq, Prod.mk.injEq]
    refine ⟨?_, ?_, ?_⟩
    · rw [sign_mul_of_parity r0 r1 r2 r3 h0 h1 h2 h3]
      congr 1
      omega
    · rw [sign_mul_of_parity r1 r5 r4 r2 h1 h5 h4 h2]
      congr 1
      omega
    · rw [sign_mul_of_parity r6 r4 r2 r3 h6 h4 h2 h3]
      congr 1
      omega

/-- Witness for the amended C9: on the record `[1,0,0,0,0,0,0]` (syndromes
(1,0,0) on the QuantumETS side), furious_five's triple is the sign image of
(blue, green, red). -/
theorem ff_syndromes_refine_witness :
    ff_syndromes ([1, 0, 0, 0, 0, 0, 0].map sample_sign)
      = some (sample_sign 1, sample_sign 0, sample_sign 0) :=
  ff_syndromes_refine_evaluate_syndromes [1, 0, 0, 0, 0, 0, 0] (by decide)
    (by decide) 1 0 0 (by decide)

/-- A successful `"".join` means every item was a string. -/
theorem str_join_ok_all_str (items : List PyVal) (s : String)
    (h : str_join items = Except.ok s) : ∀ v ∈ items, ∃ t, v = PyVal.str t := by
  induction items generalizing s with
  | nil => simp
  | cons v rest ih =>
    intro w hw
    cases v with
    | int n => exact absurd h (by simp [str_join])
    | str t =>
      rcases List.mem_cons.mp hw with rfl | hw'
      · exact ⟨t, rfl⟩
      · rw [str_join] at h
        cases hrest : str_join rest with
        | ok u => exact ih u hrest w hw'
        | error e => rw [hrest] at h; exact absurd h (by simp)

/-- C10: the extractor's output cannot be fed directly to the decoder: for
every measurement record whose syndromes `evaluate_syndromes` computes,
passing that int tuple to `evaluate_faulty_qubit` fails with `TypeError`
(the string join rejects its int items); `evaluate_faulty_qubit` succeeds
only on sequences of strings whose concatenation is a key of
`FAULTY_QUBIT_MAP`, and then returns that key's entry. -/
theorem evaluate_faulty_qubit_type_mismatch :
    (∀ (r : List Nat) (a b c : Nat), evaluate_syndromes r = some (a, b, c) →
      evaluate_faulty_qubit [PyVal.int a, PyVal.int b, PyVal.int c]
        = Except.error PyErr.typeError) ∧
    (∀ (items : List PyVal) (q : Int), evaluate_faulty_qubit items = Except.ok q →
      (∀ v ∈ items, ∃ t, v = PyVal.str t) ∧
      ∃ s, str_join items = Except.ok s ∧ FAULTY_QUBIT_MAP s = some q) := by
  constructor
  · intro r a b c _
    rfl
  · intro items q h
    rw [evaluate_faulty_qubit] at h
    cases hsj : str_join items with
    | error e => rw [hsj] at h; exact absurd h (by simp)
    | ok s =>
      rw [hsj] at h
      have h' : (match FAULTY_QUBIT_MAP s with
          | some q => Except.ok q
          | none => Except.error (PyErr.keyError s)) = Except.ok q := h
      refine ⟨str_join_ok_all_str items s hsj, s, rfl, ?_⟩
      cases hmap : FAULTY_QUBIT_MAP s with
      | some q' => rw [hmap] at h'; simp only [Except.ok.injEq] at h'; rw [h']
      | none => rw [hmap] at h'; exact absurd h' (by simp)

/-- Witness for C10 at the all-zero record: its syndrome tuple (0,0,0),
passed as ints, makes `evaluate_faulty_qubit` raise `TypeError`. -/
theorem evaluate_faulty_qubit_type_mismatch_witness :
    evaluate_faulty_qubit [PyVal.int 0, PyVal.int 0, PyVal.int 0]
      = Except.error PyErr.typeError :=
  evaluate_faulty_qubit_type_mismatch.1 [0, 0, 0, 0, 0, 0, 0] 0 0 0 (by decide)
